import Mathlib

/-!
Verification of the dashboard-generation and runner-health-check scripts.

The Python sources are embedded shallowly:
* `Dashboard` models `generate_dashboard.py`: the fetch loop (`get_github_data`),
  the aggregation (sorting by stars, language/owner frequency tables) and the
  statistics rendered into `README.md` (`update_readme`) and `docs/index.html`
  (`create_index_html`).  Python's `sorted(..., key=..., reverse=True)` is a
  stable descending sort; it is embedded as `List.insertionSort` with the
  relation `keyGe`, which yields the same (unique) stable descending ordering.
* `Runner` models `runner-health-check.py`: the version check and the
  pass/fail tally of `main` that determines the process exit code.
-/

namespace Dashboard

/-- Raw JSON record returned by the remote API for one repository; the
`language` field may be absent (`none`) or present-but-empty (`some ""`,
a falsy value for Python's `or`). -/
structure RawRepo where
  name : String
  full_name : String
  owner_login : String
  stargazers_count : Nat
  language : Option String
  created_at : String
  updated_at : String
deriving DecidableEq, Repr

/-- One snapshot dict as built inside `get_github_data` (lines 50-58). -/
structure Repo where
  name : String
  full_name : String
  owner : String
  stars : Nat
  language : String
  created_at : String
  updated_at : String
deriving DecidableEq, Repr

/-- Embedding of Python's `repo_data['language'] or 'Unknown'` (line 55):
`None` and the empty string are falsy, everything else is kept. -/
def orUnknown : Option String → String
  | none => "Unknown"
  | some s => if s = "" then "Unknown" else s

/-- Snapshot construction performed for a 200 response (lines 50-58). -/
def mkSnapshot (d : RawRepo) : Repo :=
  { name := d.name
    full_name := d.full_name
    owner := d.owner_login
    stars := d.stargazers_count
    language := orUnknown d.language
    created_at := d.created_at
    updated_at := d.updated_at }

/-- Outcome of the single GET issued for one repository identifier:
a 200 response with a body, a non-200 status, or a raised transport
exception (lines 44-63). -/
inductive FetchOutcome where
  | ok (body : RawRepo)
  | httpError (status : Nat)
  | transportError (msg : String)
deriving DecidableEq, Repr

/-- Embedding of the loop of `get_github_data` (lines 43-65): one request per
identifier, in order; a 200 response appends a snapshot, any failure only
prints and the loop continues. -/
def get_github_data : List (String × FetchOutcome) → List Repo
  | [] => []
  | (_, FetchOutcome.ok d) :: rest => mkSnapshot d :: get_github_data rest
  | (_, FetchOutcome.httpError _) :: rest => get_github_data rest
  | (_, FetchOutcome.transportError _) :: rest => get_github_data rest

/-- Test for the 200 branch of the loop. -/
def isSuccess : FetchOutcome → Bool
  | FetchOutcome.ok _ => true
  | FetchOutcome.httpError _ => false
  | FetchOutcome.transportError _ => false

/-- Snapshot produced by one outcome, if any. -/
def snapOf : FetchOutcome → Option Repo
  | FetchOutcome.ok d => some (mkSnapshot d)
  | FetchOutcome.httpError _ => none
  | FetchOutcome.transportError _ => none

/-- Descending comparison on a `Nat` key: `a` precedes `b` when
`key b ≤ key a`.  `sorted(..., key=f, reverse=True)` sorts by this
relation, keeping ties in input order (stability). -/
def keyGe (key : α → Nat) (a b : α) : Prop :=
  key b ≤ key a

instance (key : α → Nat) : DecidableRel (keyGe key) :=
  fun a b => inferInstanceAs (Decidable (key b ≤ key a))

instance (key : α → Nat) : IsTotal α (keyGe key) :=
  ⟨fun a b => Nat.le_total (key b) (key a)⟩

instance (key : α → Nat) : IsTrans α (keyGe key) :=
  ⟨fun _ _ _ hab hbc => Nat.le_trans hbc hab⟩

/-- Relation sorting snapshots descending by star count, as in
`sorted(repos_data, key=lambda x: x['stars'], reverse=True)`. -/
abbrev starsGe : Repo → Repo → Prop :=
  keyGe Repo.stars

/-- Relation sorting frequency-table entries descending by count, as in
`sorted(languages.items(), key=lambda x: x[1], reverse=True)`. -/
abbrev cntGe : String × Nat → String × Nat → Prop :=
  keyGe Prod.snd

/-- Embedding of `sorted(repos_data, key=lambda x: x['stars'], reverse=True)[:k]`
(lines 95, 146, 295): stable descending sort by stars, then the first `k`. -/
def topByStars (k : Nat) (l : List Repo) : List Repo :=
  (List.insertionSort starsGe l).take k

/-- One step of `languages[key] += 1` on a `defaultdict(int)`: Python dicts
keep keys in first-insertion order, so the table is a list of
`(key, count)` pairs in first-seen order. -/
def bumpCount : List (String × Nat) → String → List (String × Nat)
  | [], k => [(k, 1)]
  | (k', c) :: rest, k =>
      if k' = k then (k', c + 1) :: rest else (k', c) :: bumpCount rest k

/-- Frequency table built by one pass over the snapshots, counting `f`
(lines 83-85, 103-105, 120-122). -/
def countBy (f : α → String) (l : List α) : List (String × Nat) :=
  l.foldl (fun acc x => bumpCount acc (f x)) []

/-- Language frequency table (`languages[repo['language']] += 1`). -/
def languageCounts (l : List Repo) : List (String × Nat) :=
  countBy Repo.language l

/-- Owner frequency table (`owners[repo['owner']] += 1`). -/
def ownerCounts (l : List Repo) : List (String × Nat) :=
  countBy Repo.owner l

/-- Embedding of `sorted(table.items(), key=lambda x: x[1], reverse=True)[:k]`
(lines 87, 107): stable descending sort by count, then the first `k`. -/
def topCounts (k : Nat) (counts : List (String × Nat)) : List (String × Nat) :=
  (List.insertionSort cntGe counts).take k

/-- First-seen order of keys: the order in which Python's `defaultdict`
acquires its keys over one left-to-right pass. -/
def firstSeenKeys : List String → List String :=
  List.foldl (fun acc k => if k ∈ acc then acc else acc ++ [k]) []

/-- Summary statistics appearing in both rendered documents. -/
structure DocStats where
  totalRepos : Nat
  totalStars : Nat
  avgStars : Nat
deriving DecidableEq, Repr

/-- Statistics computed by `update_readme` (lines 142-144):
`total_repos = len(...)`, `total_stars = sum(...)`,
`avg_stars = total_stars // total_repos if total_repos > 0 else 0`. -/
def update_readme_stats (l : List Repo) : DocStats :=
  let total_repos := l.length
  let total_stars := (l.map Repo.stars).sum
  let avg_stars := if total_repos > 0 then total_stars / total_repos else 0
  ⟨total_repos, total_stars, avg_stars⟩

/-- Statistics interpolated into the HTML stat cards by `create_index_html`
(lines 260-268): `len(repos_data)`, `sum(...)`, and
`sum(...) // len(...) if repos_data else 0`. -/
def create_index_html_stats (l : List Repo) : DocStats :=
  ⟨l.length,
   (l.map Repo.stars).sum,
   if l = [] then 0 else (l.map Repo.stars).sum / l.length⟩

/-- Rendered document content relevant to the claims: the stat block and
the rows of the top-repositories table. -/
structure RenderedDoc where
  stats : DocStats
  rows : List Repo
deriving DecidableEq, Repr

/-- Content of `README.md` produced by `update_readme` (lines 140-171):
the statistics block and the top-5 table rows. -/
def update_readme (l : List Repo) : RenderedDoc :=
  ⟨update_readme_stats l, topByStars 5 l⟩

/-- Content of `docs/index.html` produced by `create_index_html`
(lines 260-303): the stat cards and the top-10 table rows. -/
def create_index_html (l : List Repo) : RenderedDoc :=
  ⟨create_index_html_stats l, topByStars 10 l⟩

/-- Truncation of a repository name for the chart axis (line 96):
`name[:15] + '...' if len(name) > 15 else name`. -/
def truncName (s : String) : String :=
  if s.length > 15 then String.mk (s.toList.take 15) ++ "..." else s

/-- Data plotted by the four panels of the overview chart. -/
structure OverviewChart where
  starsValues : List Nat
  topLangs : List (String × Nat)
  topRepoNames : List String
  topRepoStars : List Nat
  topOwners : List (String × Nat)
deriving DecidableEq, Repr

/-- Embedding of `generate_overview_chart` (lines 67-116): with an empty
input it returns immediately (line 69-70) and no chart is produced;
otherwise the four panels are computed as shown. -/
def generate_overview_chart (l : List Repo) : Option OverviewChart :=
  if l = [] then none
  else
    some
      { starsValues := l.map Repo.stars
        topLangs := topCounts 8 (languageCounts l)
        topRepoNames := (topByStars 10 l).map (fun r => truncName r.name)
        topRepoStars := (topByStars 10 l).map Repo.stars
        topOwners := topCounts 8 (ownerCounts l) }

/-- Embedding of `generate_language_chart` (lines 118-138): the chart is
drawn only when the language table is non-empty (`if languages:`). -/
def generate_language_chart (l : List Repo) : Option (List (String × Nat)) :=
  let languages := languageCounts l
  if languages = [] then none
  else some (List.insertionSort cntGe languages)

/-- Convenience constructor for concrete test snapshots. -/
def mkRepo (n own : String) (s : Nat) (lang : String) : Repo :=
  ⟨n, own ++ "/" ++ n, own, s, lang, "2020-01-01T00:00:00Z", "2024-01-01T00:00:00Z"⟩

/-- Convenience constructor for concrete raw API records. -/
def mkRaw (n own : String) (s : Nat) (lang : Option String) : RawRepo :=
  ⟨n, own ++ "/" ++ n, own, s, lang, "2020-01-01T00:00:00Z", "2024-01-01T00:00:00Z"⟩

/-- Batch of eight identifiers of which exactly three fail (two non-200
responses and one transport error), mirroring the eight tracked
repositories of `repos_to_track`. -/
def demoBatch : List (String × FetchOutcome) :=
  [("facebook/react", FetchOutcome.ok (mkRaw "react" "facebook" 220000 (some "JavaScript"))),
   ("microsoft/vscode", FetchOutcome.httpError 404),
   ("google/tensorflow", FetchOutcome.ok (mkRaw "tensorflow" "google" 180000 (some "C++"))),
   ("apple/swift", FetchOutcome.httpError 500),
   ("netflix/zuul", FetchOutcome.ok (mkRaw "zuul" "netflix" 13000 (some "Java"))),
   ("amazon/aws-sdk-js", FetchOutcome.transportError "timeout"),
   ("stripe/stripe-js", FetchOutcome.ok (mkRaw "stripe-js" "stripe" 1500 none)),
   ("twilio/twilio-python", FetchOutcome.ok (mkRaw "twilio-python" "twilio" 1900 (some "Python")))]

/-- Three snapshots whose star counts are 100, 50 and 200, for the
worked example of the spec. -/
def exampleRepos : List Repo :=
  [mkRepo "alpha" "acme" 100 "Python",
   mkRepo "beta" "acme" 50 "Go",
   mkRepo "gamma" "zeta" 200 "Rust"]

end Dashboard

namespace Runner

/-- Embedding of `check_python_version` (lines 14-22 of
`runner-health-check.py`): the check passes exactly when
`version.major >= 3 and version.minor >= 7`; the `micro` component is
only printed, never compared. -/
def check_python_version (major minor _micro : Nat) : Bool :=
  decide (3 ≤ major) && decide (7 ≤ minor)

/-- Modelled from the spec: a version is at least the minimum under
major.minor comparison, i.e. lexicographic order on the
`(major, minor)` pair (the behaviour the docstring "Python 3.7+"
describes). -/
def versionAtLeastSpec (major minor minMajor minMinor : Nat) : Bool :=
  decide (minMajor < major) || (decide (major = minMajor) && decide (minMinor ≤ minor))

/-- Tally of `main` (lines 89-131): for each check, `total_checks += 1`
and, when it passed, `checks_passed += 1`; returns
`(checks_passed, total_checks)`. -/
def tallyChecks (results : List Bool) : Nat × Nat :=
  results.foldl (fun acc ok => (if ok then acc.1 + 1 else acc.1, acc.2 + 1)) (0, 0)

/-- Exit status of `main` (lines 134-143): `sys.exit(0)` when
`checks_passed == total_checks`, `sys.exit(1)` otherwise.  The nine
booleans are the outcomes of the nine checks run in order: the version
check, the four package checks (`requests`, `matplotlib`, `seaborn`,
`pandas`), the two command checks (`git`, `pip`), the disk-space check
and the network check. -/
def mainExitCode (ver p1 p2 p3 p4 c1 c2 disk net : Bool) : Nat :=
  let t := tallyChecks [ver, p1, p2, p3, p4, c1, c2, disk, net]
  if t.1 = t.2 then 0 else 1

end Runner

namespace Dashboard

lemma keyGe_not_le {key : α → Nat} {a b : α} (h : ¬ keyGe key a b) :
    key a < key b :=
  Nat.lt_of_not_le h

lemma filter_key_orderedInsert (key : α → Nat) (s : Nat) (a : α) :
    ∀ l : List α,
      (List.orderedInsert (keyGe key) a l).filter (fun x => key x == s)
        = if key a == s then a :: l.filter (fun x => key x == s)
          else l.filter (fun x => key x == s)
  | [] => by
      by_cases ha : (key a == s) = true <;>
        simp [List.orderedInsert, ha]
  | b :: bs => by
      simp only [List.orderedInsert]
      by_cases hab : keyGe key a b
      · rw [if_pos hab]
        by_cases ha : (key a == s) = true <;>
          simp [List.filter_cons, ha]
      · rw [if_neg hab]
        have hlt : key a < key b := keyGe_not_le hab
        by_cases ha : (key a == s) = true
        · have has : key a = s := by simpa using ha
          have hbs : (key b == s) = false := by
            simp only [beq_eq_false_iff_ne, ne_eq]
            omega
          simp [List.filter_cons, hbs, filter_key_orderedInsert key s a bs, ha]
        · have ha' : (key a == s) = false := by
            simpa using ha
          by_cases hb : (key b == s) = true <;>
            simp [List.filter_cons, hb, filter_key_orderedInsert key s a bs, ha']

lemma filter_key_insertionSort (key : α → Nat) (s : Nat) :
    ∀ l : List α,
      (List.insertionSort (keyGe key) l).filter (fun x => key x == s)
        = l.filter (fun x => key x == s)
  | [] => rfl
  | b :: bs => by
      simp only [List.insertionSort]
      rw [filter_key_orderedInsert]
      by_cases hb : (key b == s) = true <;>
        simp [List.filter_cons, hb, filter_key_insertionSort key s bs]

lemma sortKey_pairwise (key : α → Nat) (l : List α) (k : Nat) :
    ((List.insertionSort (keyGe key) l).take k).Pairwise (keyGe key) :=
  List.Pairwise.sublist (List.take_sublist k _)
    (List.sorted_insertionSort (keyGe key) l)

lemma sortKey_take_length (key : α → Nat) (l : List α) (k : Nat) :
    ((List.insertionSort (keyGe key) l).take k).length = min k l.length := by
  rw [List.length_take, (List.perm_insertionSort (keyGe key) l).length_eq]

lemma sortKey_take_subperm (key : α → Nat) (l : List α) (k : Nat) :
    List.Subperm ((List.insertionSort (keyGe key) l).take k) l :=
  (List.take_sublist k _).subperm.trans
    (List.perm_insertionSort (keyGe key) l).subperm

lemma sortKey_take_filter_sublist (key : α → Nat) (l : List α) (k s : Nat) :
    List.Sublist
      (((List.insertionSort (keyGe key) l).take k).filter (fun x => key x == s))
      (l.filter (fun x => key x == s)) := by
  have h := (List.take_sublist k
      (List.insertionSort (keyGe key) l)).filter (fun x => key x == s)
  rwa [filter_key_insertionSort key s l] at h

/-- C1: for every snapshot list and caller limit `k`, `topByStars k` is
sorted descending by star count, has length `min k (length input)`, is a
selection of input records (a sub-permutation), and within each star
value the selected records keep their input order (stability); on star
counts `[100, 50, 200]` with `k = 2` the resulting star counts are
`[200, 100]`. -/
theorem topByStars_spec :
    (∀ (k : Nat) (l : List Repo),
        (topByStars k l).Pairwise (fun a b => b.stars ≤ a.stars)
        ∧ (topByStars k l).length = min k l.length
        ∧ List.Subperm (topByStars k l) l
        ∧ ∀ s : Nat,
            List.Sublist ((topByStars k l).filter (fun r => r.stars == s))
              (l.filter (fun r => r.stars == s)))
    ∧ (topByStars 2 exampleRepos).map Repo.stars = [200, 100] := by
  refine ⟨fun k l => ⟨?_, ?_, ?_, ?_⟩, by decide⟩
  · exact sortKey_pairwise Repo.stars l k
  · exact sortKey_take_length Repo.stars l k
  · exact sortKey_take_subperm Repo.stars l k
  · exact fun s => sortKey_take_filter_sublist Repo.stars l k s

end Dashboard

namespace Dashboard

lemma bumpCount_keys (k : String) :
    ∀ acc : List (String × Nat),
      (bumpCount acc k).map Prod.fst
        = if k ∈ acc.map Prod.fst then acc.map Prod.fst
          else acc.map Prod.fst ++ [k]
  | [] => by simp [bumpCount]
  | (k', c) :: rest => by
      by_cases hk : k' = k
      · subst hk
        simp [bumpCount]
      · by_cases hmem : k ∈ rest.map Prod.fst <;>
          simp [bumpCount, hk, Ne.symm hk, bumpCount_keys k rest, hmem]

lemma countBy_keys_aux (f : α → String) :
    ∀ (l : List α) (acc : List (String × Nat)),
      (l.foldl (fun a x => bumpCount a (f x)) acc).map Prod.fst
        = (l.map f).foldl (fun a k => if k ∈ a then a else a ++ [k])
            (acc.map Prod.fst)
  | [], _ => rfl
  | x :: xs, acc => by
      simp only [List.foldl_cons, List.map_cons]
      rw [countBy_keys_aux f xs (bumpCount acc (f x)), bumpCount_keys (f x) acc]

lemma countBy_keys (f : α → String) (l : List α) :
    (countBy f l).map Prod.fst = firstSeenKeys (l.map f) := by
  simpa [countBy, firstSeenKeys] using countBy_keys_aux f l []

lemma bumpCount_sum (k : String) :
    ∀ acc : List (String × Nat),
      ((bumpCount acc k).map Prod.snd).sum = (acc.map Prod.snd).sum + 1
  | [] => by simp [bumpCount]
  | (k', c) :: rest => by
      by_cases hk : k' = k <;>
        simp [bumpCount, hk, bumpCount_sum k rest] <;> omega

lemma countBy_sum_aux (f : α → String) :
    ∀ (l : List α) (acc : List (String × Nat)),
      ((l.foldl (fun a x => bumpCount a (f x)) acc).map Prod.snd).sum
        = (acc.map Prod.snd).sum + l.length
  | [], _ => by simp
  | x :: xs, acc => by
      simp only [List.foldl_cons, List.length_cons]
      rw [countBy_sum_aux f xs (bumpCount acc (f x)), bumpCount_sum (f x) acc]
      omega

/-- C8: every snapshot lands in exactly one language bucket, so the values
of the language frequency table sum to the number of snapshots. -/
theorem languageCounts_sum_eq_length (l : List Repo) :
    ((languageCounts l).map Prod.snd).sum = l.length := by
  simpa [languageCounts, countBy] using countBy_sum_aux Repo.language l []

/-- C7: the top-8 language and owner rankings are sorted descending by
occurrence count; within one count value the surviving entries keep the
order of the frequency table (stability), whose key order is exactly the
first-seen order of that language or owner in the input; the result is
therefore a deterministic function of the input order. -/
theorem topCounts_sorted_firstSeen :
    ∀ l : List Repo,
      ((topCounts 8 (languageCounts l)).Pairwise (fun a b => b.2 ≤ a.2)
        ∧ ∀ c : Nat,
            List.Sublist
              ((topCounts 8 (languageCounts l)).filter (fun p => p.2 == c))
              ((languageCounts l).filter (fun p => p.2 == c)))
      ∧ ((topCounts 8 (ownerCounts l)).Pairwise (fun a b => b.2 ≤ a.2)
        ∧ ∀ c : Nat,
            List.Sublist
              ((topCounts 8 (ownerCounts l)).filter (fun p => p.2 == c))
              ((ownerCounts l).filter (fun p => p.2 == c)))
      ∧ (languageCounts l).map Prod.fst = firstSeenKeys (l.map Repo.language)
      ∧ (ownerCounts l).map Prod.fst = firstSeenKeys (l.map Repo.owner) := by
  intro l
  refine ⟨⟨?_, ?_⟩, ⟨?_, ?_⟩, ?_, ?_⟩
  · exact sortKey_pairwise Prod.snd (languageCounts l) 8
  · exact fun c => sortKey_take_filter_sublist Prod.snd (languageCounts l) 8 c
  · exact sortKey_pairwise Prod.snd (ownerCounts l) 8
  · exact fun c => sortKey_take_filter_sublist Prod.snd (ownerCounts l) 8 c
  · exact countBy_keys Repo.language l
  · exact countBy_keys Repo.owner l

lemma natCast_div_floor (a n : Nat) :
    ⌊(a : ℚ) / (n : ℚ)⌋₊ = a / n := by
  rw [Nat.floor_div_nat, Nat.floor_natCast]

/-- C2: for non-empty input both rendered average-star statistics equal
the floor of total stars over the number of snapshots, and both are `0`
on empty input. -/
theorem averageStars_floor_spec :
    (∀ l : List Repo, l ≠ [] →
        (update_readme_stats l).avgStars
            = ⌊((l.map Repo.stars).sum : ℚ) / (l.length : ℚ)⌋₊
          ∧ (create_index_html_stats l).avgStars
            = ⌊((l.map Repo.stars).sum : ℚ) / (l.length : ℚ)⌋₊)
    ∧ (update_readme_stats []).avgStars = 0
    ∧ (create_index_html_stats []).avgStars = 0 := by
  refine ⟨fun l hl => ?_, rfl, rfl⟩
  have hpos : 0 < l.length := List.length_pos.mpr hl
  rw [natCast_div_floor]
  constructor
  · simp only [update_readme_stats]
    exact if_pos hpos
  · simp only [create_index_html_stats]
    exact if_neg hl

/-- Witness for C2: the floor characterisation instantiated at a concrete
non-empty snapshot list. -/
theorem averageStars_floor_witness :
    exampleRepos ≠ []
    ∧ (update_readme_stats exampleRepos).avgStars
        = ⌊((exampleRepos.map Repo.stars).sum : ℚ) / (exampleRepos.length : ℚ)⌋₊
    ∧ (create_index_html_stats exampleRepos).avgStars
        = ⌊((exampleRepos.map Repo.stars).sum : ℚ) / (exampleRepos.length : ℚ)⌋₊ :=
  ⟨by decide,
   (averageStars_floor_spec.1 exampleRepos (by decide)).1,
   (averageStars_floor_spec.1 exampleRepos (by decide)).2⟩

/-- C10: the Markdown renderer and the HTML renderer compute the same
summary statistics (repository count, total stars, average stars) from
the same snapshot list. -/
theorem readme_html_stats_agree (l : List Repo) :
    (update_readme l).stats = (create_index_html l).stats := by
  cases l with
  | nil => rfl
  | cons a t =>
      simp [update_readme, create_index_html, update_readme_stats,
        create_index_html_stats]

/-- C4: on the empty snapshot list neither chart is produced (generation
is skipped), and both documents render with zero-value placeholders --
zero repositories, zero total stars, zero average stars and an empty
top-repositories table -- the embedding being total, without raising. -/
theorem empty_input_renders_zero :
    generate_overview_chart [] = none
    ∧ generate_language_chart [] = none
    ∧ update_readme [] = ⟨⟨0, 0, 0⟩, []⟩
    ∧ create_index_html [] = ⟨⟨0, 0, 0⟩, []⟩ :=
  ⟨rfl, rfl, rfl, rfl⟩

end Dashboard

namespace Dashboard

lemma get_github_data_eq_filterMap :
    ∀ reqs : List (String × FetchOutcome),
      get_github_data reqs = (reqs.map Prod.snd).filterMap snapOf
  | [] => rfl
  | (_, FetchOutcome.ok d) :: rest => by
      simp [get_github_data, snapOf, List.filterMap_cons,
        get_github_data_eq_filterMap rest]
  | (_, FetchOutcome.httpError s) :: rest => by
      simp [get_github_data, snapOf, List.filterMap_cons,
        get_github_data_eq_filterMap rest]
  | (_, FetchOutcome.transportError m) :: rest => by
      simp [get_github_data, snapOf, List.filterMap_cons,
        get_github_data_eq_filterMap rest]

lemma get_github_data_length :
    ∀ reqs : List (String × FetchOutcome),
      (get_github_data reqs).length
        = ((reqs.map Prod.snd).filter isSuccess).length
  | [] => rfl
  | (_, FetchOutcome.ok d) :: rest => by
      simp [get_github_data, isSuccess, List.filter_cons,
        get_github_data_length rest]
  | (_, FetchOutcome.httpError s) :: rest => by
      simp [get_github_data, isSuccess, List.filter_cons,
        get_github_data_length rest]
  | (_, FetchOutcome.transportError m) :: rest => by
      simp [get_github_data, isSuccess, List.filter_cons,
        get_github_data_length rest]

lemma get_github_data_nil_iff :
    ∀ reqs : List (String × FetchOutcome),
      (get_github_data reqs = [] ↔ ∀ pr ∈ reqs, isSuccess pr.2 = false)
  | [] => by simp [get_github_data]
  | (n, FetchOutcome.ok d) :: rest => by
      simp [get_github_data, isSuccess]
  | (n, FetchOutcome.httpError s) :: rest => by
      simpa [get_github_data, isSuccess]
        using get_github_data_nil_iff rest
  | (n, FetchOutcome.transportError m) :: rest => by
      simpa [get_github_data, isSuccess]
        using get_github_data_nil_iff rest

/-- C3: the fetch loop returns exactly the snapshots of the successful
identifiers, in input order (it equals an order-preserving `filterMap`
of the per-identifier outcomes), its length is the number of successes,
and it is empty exactly when every request failed; on a batch of eight
identifiers of which three fail it returns the five successful
snapshots in input-relative order. -/
theorem get_github_data_spec :
    (∀ reqs : List (String × FetchOutcome),
        get_github_data reqs = (reqs.map Prod.snd).filterMap snapOf
        ∧ (get_github_data reqs).length
            = ((reqs.map Prod.snd).filter isSuccess).length
        ∧ (get_github_data reqs = [] ↔ ∀ pr ∈ reqs, isSuccess pr.2 = false))
    ∧ (get_github_data demoBatch).length = 5
    ∧ (get_github_data demoBatch).map Repo.full_name
        = ["facebook/react", "google/tensorflow", "netflix/zuul",
           "stripe/stripe-js", "twilio/twilio-python"] := by
  refine ⟨fun reqs => ⟨?_, ?_, ?_⟩, by decide, by decide⟩
  · exact get_github_data_eq_filterMap reqs
  · exact get_github_data_length reqs
  · exact get_github_data_nil_iff reqs

lemma orUnknown_ne_empty (o : Option String) : orUnknown o ≠ "" := by
  cases o with
  | none => decide
  | some s =>
      by_cases hs : s = "" <;> simp [orUnknown, hs]

lemma mem_get_github_data_language :
    ∀ reqs : List (String × FetchOutcome),
      ∀ r ∈ get_github_data reqs, r.language ≠ ""
  | (_, FetchOutcome.ok d) :: rest, r, hr => by
      rcases (List.mem_cons).1 hr with h | h
      · subst h
        exact orUnknown_ne_empty d.language
      · exact mem_get_github_data_language rest r h
  | (_, FetchOutcome.httpError s) :: rest, r, hr =>
      mem_get_github_data_language rest r hr
  | (_, FetchOutcome.transportError m) :: rest, r, hr =>
      mem_get_github_data_language rest r hr

/-- C9: every snapshot built by the fetch loop carries a non-empty
language (an absent or falsy remote language is replaced by the sentinel
`"Unknown"`), and the later pipeline stages only select records of the
input list, so the invariant is preserved. -/
theorem snapshot_language_invariant :
    (∀ reqs : List (String × FetchOutcome),
        ∀ r ∈ get_github_data reqs, r.language ≠ "")
    ∧ (∀ d : RawRepo, (d.language = none ∨ d.language = some "") →
        (mkSnapshot d).language = "Unknown")
    ∧ (∀ (k : Nat) (l : List Repo), ∀ r ∈ topByStars k l, r ∈ l) := by
  refine ⟨mem_get_github_data_language, fun d hd => ?_, fun k l r hr => ?_⟩
  · rcases hd with h | h <;> simp [mkSnapshot, orUnknown, h]
  · exact ((List.perm_insertionSort starsGe l).mem_iff).1
      (List.take_subset k _ hr)

/-- Witness for C9: the snapshot of the identifier whose remote record
has no language is in the fetched list and its language is the
non-empty sentinel. -/
theorem snapshot_language_invariant_witness :
    mkSnapshot (mkRaw "stripe-js" "stripe" 1500 none) ∈ get_github_data demoBatch
    ∧ (mkSnapshot (mkRaw "stripe-js" "stripe" 1500 none)).language ≠ "" :=
  ⟨by decide,
   snapshot_language_invariant.1 demoBatch _ (by decide)⟩

end Dashboard

namespace Runner

lemma tallyChecks_go (results : List Bool) :
    ∀ a b : Nat,
      results.foldl (fun acc ok => (if ok then acc.1 + 1 else acc.1, acc.2 + 1)) (a, b)
        = (a + results.count true, b + results.length) := by
  induction results with
  | nil => intro a b; simp
  | cons r rest ih =>
      intro a b
      cases r <;> simp [List.count_cons, ih] <;> omega

lemma tallyChecks_eq (results : List Bool) :
    tallyChecks results = (results.count true, results.length) := by
  simpa [tallyChecks] using tallyChecks_go results 0 0

/-- C6: the tally of `main` reaches `checks_passed == total_checks`
exactly when every individual check passed, and the process exit status
over the nine checks is `0` exactly when all nine passed and `1`
otherwise. -/
theorem mainExitCode_spec :
    (∀ results : List Bool,
        ((tallyChecks results).1 = (tallyChecks results).2
          ↔ ∀ b ∈ results, b = true))
    ∧ ∀ ver p1 p2 p3 p4 c1 c2 disk net : Bool,
        (mainExitCode ver p1 p2 p3 p4 c1 c2 disk net = 0
          ↔ (ver ∧ p1 ∧ p2 ∧ p3 ∧ p4 ∧ c1 ∧ c2 ∧ disk ∧ net))
        ∧ (mainExitCode ver p1 p2 p3 p4 c1 c2 disk net = 1
          ↔ ¬(ver ∧ p1 ∧ p2 ∧ p3 ∧ p4 ∧ c1 ∧ c2 ∧ disk ∧ net)) := by
  constructor
  · intro results
    rw [tallyChecks_eq]
    constructor
    · intro h b hb
      exact (List.count_eq_length.1 h b hb).symm
    · intro h
      exact List.count_eq_length.2 fun b hb => (h b hb).symm
  · intro ver p1 p2 p3 p4 c1 c2 disk net
    cases ver <;> cases p1 <;> cases p2 <;> cases p3 <;> cases p4 <;>
      cases c1 <;> cases c2 <;> cases disk <;> cases net <;> decide

/-- C5: the version check of the Health Checker evaluated against the
lexicographic major.minor minimum: versions 3.6.0 and 3.9.0 behave as
the claim states, but 4.0.0 satisfies the 3.7 minimum lexicographically
while the code rejects it, because the code demands `minor >= 7`
regardless of the major version. -/
theorem check_python_version_divergence :
    versionAtLeastSpec 4 0 3 7 = true
    ∧ check_python_version 4 0 0 = false
    ∧ check_python_version 3 6 0 = false
    ∧ check_python_version 3 9 0 = true
    ∧ versionAtLeastSpec 3 6 3 7 = false
    ∧ versionAtLeastSpec 3 9 3 7 = true := by
  decide

end Runner

namespace Dashboard

/-- Witness for C3: the fetch loop on the concrete eight-identifier batch
equals the order-preserving `filterMap` of its outcomes. -/
theorem get_github_data_spec_witness :
    get_github_data demoBatch = (demoBatch.map Prod.snd).filterMap snapOf :=
  (get_github_data_spec.1 demoBatch).1

end Dashboard

namespace Runner

/-- Witness for C6: with all nine checks passing the exit status is `0`,
and with one failed package check it is `1`. -/
theorem mainExitCode_spec_witness :
    mainExitCode true true true true true true true true true = 0
    ∧ mainExitCode true true true true false true true true true = 1 :=
  ⟨((mainExitCode_spec.2 true true true true true true true true true).1).mpr
      (by decide),
   ((mainExitCode_spec.2 true true true true false true true true true).2).mpr
      (by decide)⟩

end Runner
